import Mathlib

/-!
Verification of the rollout progression controller (`src/main.ts` of the
rollout GitHub action) against its natural-language specification.

The TypeScript source is shallowly embedded: every remote HTTP interaction is
replaced by an explicit response value (or a response oracle indexed by the
number of calls already made), and every function of the source becomes a pure
Lean function over those responses that additionally records the remote calls
it issues.  JavaScript `undefined` fields of the loosely typed JSON payloads
are modelled with `Option`; a JavaScript `TypeError` caused by accessing a
field of `undefined` is modelled by a distinguished "stuck" result.
-/

namespace RolloutAction

/-- Task status as reported by the platform (`Task.status` in the source). -/
inductive TaskStatus
  | NOT_STARTED
  | PENDING
  | RUNNING
  | DONE
  | SKIPPED
  | FAILED
  | CANCELED
deriving DecidableEq, Repr

/-- A task of a stage (fields accessed by the source: `name`, `status`). -/
structure Task where
  name : String
  status : TaskStatus
deriving DecidableEq, Repr

/-- A stage of a rollout (fields accessed by the source: `name`,
`environment`, `tasks`).  `tasks` is `Option`al because the JSON payload may
lack the field, in which case the source crashes on access. -/
structure Stage where
  name : String
  environment : String
  tasks : Option (List Task)
deriving DecidableEq, Repr

/-- A rollout (fields accessed by the source: `name`, `plan`, `stages`).
`stages` is `Option`al: the source explicitly guards one access with
`r.stages?.length ?? 0` and leaves the others unguarded. -/
structure Rollout where
  name : String
  plan : String
  stages : Option (List Stage)
deriving DecidableEq, Repr

/-- Result of the stage/task status classifier. -/
structure StageStatus where
  done : Bool
  failedTasks : List Task
deriving DecidableEq, Repr

/-- Embedding of `getStageStatus` from the source:

```
function getStageStatus(stage: any) {
  return {
    done: stage.tasks.every(
      (e: { status: string }) => e.status === 'DONE' || e.status === 'SKIPPED'
    ),
    failedTasks: stage.tasks.filter(
      (e: { status: string }) => e.status === 'FAILED'
    )
  }
}
```

`none` models the `TypeError` thrown when `stage.tasks` is `undefined`. -/
def getStageStatus (stage : Stage) : Option StageStatus :=
  match stage.tasks with
  | none => none
  | some ts =>
      some
        { done := ts.all fun e =>
            e.status == TaskStatus.DONE || e.status == TaskStatus.SKIPPED
          failedTasks := ts.filter fun e => e.status == TaskStatus.FAILED }

/-- JavaScript `String.prototype.includes` on explicit character lists:
`sub` occurs (contiguously) somewhere in the list. -/
def charsInclude (sub : List Char) : List Char → Bool
  | [] => sub.isEmpty
  | c :: rest => sub.isPrefixOf (c :: rest) || charsInclude sub rest

/-- JavaScript `s.includes(sub)`. -/
def stringIncludes (s sub : String) : Bool :=
  charsInclude sub.toList s.toList

/-- The one batch-run error message substring the source treats as a
retryable, ignorable conflict. -/
def conflictMessage : String :=
  "cannot create pending task runs because there are pending/running/done task runs"

/-- Response of the remote `tasks:batchRun` call as seen by `runStageTasks`:
either the HTTP client rejected with an error message, or it resolved with a
status code and a `result.message` payload. -/
inductive BatchRunResp
  | thrown (msg : String)
  | resp (statusCode : Nat) (message : String)
deriving DecidableEq, Repr

/-- Outcome of `runStageTasks`: normal completion, a propagated error, or a
`TypeError` crash (when `stage.tasks` is `undefined`). -/
inductive RunTasksOutcome
  | ok
  | err (msg : String)
  | crashed
deriving DecidableEq, Repr

/-- The error message `runStageTasks` builds for a non-200 response. -/
def batchRunErrMsg (statusCode : Nat) (message : String) : String :=
  "failed to run tasks, " ++ toString statusCode ++ ", " ++ message

/-- The names of the NOT_STARTED tasks of a stage, in task-list order
(`stage.tasks.filter(... 'NOT_STARTED').map(e => e.name)`). -/
def notStartedNames (stage : Stage) : List String :=
  ((stage.tasks.getD []).filter fun e => e.status == TaskStatus.NOT_STARTED).map Task.name

/-- Embedding of `runStageTasks` from the source.  The second component of the result
records whether the network call (`POST .../tasks:batchRun`) was issued.

```
async function runStageTasks(c, stage) {
  const taskNames = stage.tasks.filter(e => e.status === 'NOT_STARTED').map(e => e.name)
  if (taskNames.length === 0) { return }
  try {
    const response = await c.postJson(url, request)
    if (response.statusCode !== 200) {
      throw new Error(`failed to run tasks, .., ..`)
    }
  } catch (e) {
    if (e.message.includes('cannot create pending task runs because there are pending/running/done task runs')) {
      core.info(...)
    } else { throw e }
  }
}
``` -/
def runStageTasks (stage : Stage) (resp : BatchRunResp) : RunTasksOutcome × Bool :=
  match stage.tasks with
  | none => (.crashed, false)
  | some ts =>
      let taskNames := (ts.filter fun e => e.status == TaskStatus.NOT_STARTED).map Task.name
      if taskNames.length == 0 then (.ok, false)
      else
        let thrownMsg : Option String :=
          match resp with
          | .thrown m => some m
          | .resp code m => if code == 200 then none else some (batchRunErrMsg code m)
        match thrownMsg with
        | none => (.ok, true)
        | some m =>
            if stringIncludes m conflictMessage then (.ok, true) else (.err m, true)

/-! ## Cancellation handler (`cancelRollout`) -/

/-- Task-run status as reported by the platform. -/
inductive TaskRunStatus
  | PENDING
  | RUNNING
  | DONE
  | FAILED
  | CANCELED
deriving DecidableEq, Repr

/-- A remote task-run record (fields accessed by the source: `name`,
`status`). -/
structure TaskRun where
  name : String
  status : TaskRunStatus
deriving DecidableEq, Repr

/-- Remote responses consumed by one invocation of `cancelRollout`:
the status code and body of the task-run listing, and whether the
batch-cancel `postJson` rejects (with which message). -/
structure CancelEnv where
  listStatusCode : Nat
  listResult : Option (List TaskRun)
  cancelThrows : Option String
deriving Repr

/-- Remote calls issued by `cancelRollout`. -/
inductive CancelCall
  | listTaskRuns
  | batchCancel (stageId : String) (taskRunNames : List String)
deriving DecidableEq, Repr

/-- How one invocation of `cancelRollout` ends: immediately (no rollout
created yet), with nothing to cancel, with the batch-cancel issued (`warned`
records whether its failure was logged as a warning), or with an error
thrown out of the handler. -/
inductive CancelOutcome
  | noop
  | nothingToCancel
  | canceled (warned : Bool)
  | thrown (msg : String)
deriving DecidableEq, Repr

/-- First match of the regular expression `stages\/\d+` in a character list:
scan left to right for the first position where `stages/` is followed by at
least one digit, and capture `stages/` plus the maximal digit run there. -/
def findStageIdChars : List Char → Option String
  | [] => none
  | c :: rest =>
      if ("stages/".toList).isPrefixOf (c :: rest) then
        let ds := ((c :: rest).drop 7).takeWhile Char.isDigit
        if ds.isEmpty then findStageIdChars rest
        else some (String.mk ("stages/".toList ++ ds))
      else findStageIdChars rest

/-- Embedding of `taskRun.name.match(/(?<stageId>stages\/\d+)/)`, extracting the
`stageId` capture group. -/
def findStageId (name : String) : Option String :=
  findStageIdChars name.toList

/-- The `for (const taskRun of taskRuns)` loop of `cancelRollout`: `stageId`
starts as the accumulator and is overwritten by every task-run's extracted
stage id in turn; any task-run whose name has no match throws, and so does a
final empty `stageId`.  The result is therefore derived from the **last**
task-run of the list. -/
def deriveStageId (runs : List TaskRun) (acc : String) : Except String String :=
  match runs with
  | [] =>
      if acc == "" then .error "failed to extract stage id from task run name"
      else .ok acc
  | r :: rest =>
      match findStageId r.name with
      | none => .error "failed to extract stage id from task run name"
      | some sid => deriveStageId rest sid

/-- Embedding of `cancelRollout` from the source, over the created-rollout handle and the
remote responses; the second component is the list of remote calls issued.

```
async function cancelRollout(c) {
  if (!createdRollout) { return }
  const listTaskRunsResponse = await c.getJson(...)
  if (listTaskRunsResponse.statusCode !== 200) { throw new Error(...) }
  if (!listTaskRunsResponse.result) { throw new Error(...) }
  const taskRuns = listTaskRunsResponse.result.taskRuns.filter(
    t => t.status === 'PENDING' || t.status === 'RUNNING')
  if (!Array.isArray(taskRuns) || taskRuns.length === 0) { return }
  let stageId = ''
  for (const taskRun of taskRuns) { ... stageId = m.groups['stageId'] }
  if (!stageId) { throw new Error(...) }
  try { await c.postJson(url, { taskRuns: ... }) }
  catch (error) { core.warning(...) }
}
```

`some ""` for the handle also resolves to a no-op because the empty string is
falsy in JavaScript. -/
def cancelRollout (createdRollout : Option String) (env : CancelEnv) :
    CancelOutcome × List CancelCall :=
  match createdRollout with
  | none => (.noop, [])
  | some cr =>
      if cr == "" then (.noop, [])
      else if env.listStatusCode != 200 then
        (.thrown ("failed to list task runs, status code: " ++ toString env.listStatusCode),
         [.listTaskRuns])
      else
        match env.listResult with
        | none => (.thrown "list task runs not found", [.listTaskRuns])
        | some allRuns =>
            let taskRuns := allRuns.filter fun t =>
              t.status == TaskRunStatus.PENDING || t.status == TaskRunStatus.RUNNING
            if taskRuns.length == 0 then (.nothingToCancel, [.listTaskRuns])
            else
              match deriveStageId taskRuns "" with
              | .error m => (.thrown m, [.listTaskRuns])
              | .ok stageId =>
                  let calls := [CancelCall.listTaskRuns,
                                CancelCall.batchCancel stageId (taskRuns.map TaskRun.name)]
                  match env.cancelThrows with
                  | some _ => (.canceled true, calls)
                  | none => (.canceled false, calls)

/-! ## The pre-loop part of `run`: target-stage validation -/

/-- Outcome of `run` between the preview response and the progression loop:
either the target-stage validation passes and the real (non-validate-only)
rollout creation proceeds, or `run` fails with a message, or it crashes on a
preview without a `stages` field.  The second component records whether the
non-validate-only `createRollout` call (the remote mutation) was issued.

Mirrors lines 55–70 of the source:

```
if (!rolloutPreview.stages.some(e => e.environment === targetStage)) {
  throw new Error(`target stage ... not found\navailable stages:\n...`)
}
const rollout = await createRollout(c, project, planName, false, '')
createdRollout = rollout.name
``` -/
inductive RunOutcome
  | proceeded (rolloutName : String)
  | failed (msg : String)
  | crashed
deriving DecidableEq, Repr

/-- The error message built when the target stage is absent from the
preview. -/
def targetNotFoundMsg (targetStage : String) (stages : List Stage) : String :=
  "target stage " ++ targetStage ++ " not found\navailable stages:\n" ++
    String.intercalate "\n" (stages.map Stage.environment)

/-- The part of `run` following a successful preview: validate the requested
target stage against the preview's stage environments, then create the real
rollout.  `createResp` is the response of the non-validate-only
`createRollout` call; the boolean records whether that call was issued. -/
def runAfterPreview (preview : Rollout) (targetStage : String)
    (createResp : Except String Rollout) : RunOutcome × Bool :=
  match preview.stages with
  | none => (.crashed, false)
  | some stages =>
      if stages.any fun e => e.environment == targetStage then
        match createResp with
        | .ok rollout => (.proceeded rollout.name, true)
        | .error m => (.failed m, true)
      else
        (.failed (targetNotFoundMsg targetStage stages), false)

/-! ## The progression loop (`waitRollout`)

The loop is embedded as a fuel-indexed iteration of a deterministic loop
body over a response oracle (`LoopEnv`): the `k`-th `getRollout`,
stage-creating `createRollout` and `tasks:batchRun` responses are given by
total functions of `k`.  Every remote call the loop issues is recorded as an
`Event` carrying the advancement cursor at which it was issued. -/

/-- Remote calls issued by the progression loop, each tagged with the value
of the advancement cursor `i` when it was issued. -/
inductive Event
  | getRollout (i : Nat)
  | createStage (i : Nat) (environment : String)
  | batchRun (i : Nat) (stageName : String) (taskNames : List String)
  | sleepPoll (i : Nat)
deriving DecidableEq, Repr

/-- The cursor at which an event was issued. -/
def Event.index : Event → Nat
  | .getRollout i => i
  | .createStage i _ => i
  | .batchRun i _ _ => i
  | .sleepPoll i => i

/-- Response oracle for the loop: `fetch k` is the `k`-th `getRollout`
response, `create k` the `k`-th stage-creating `createRollout` response, and
`batch k` the `k`-th `tasks:batchRun` response. -/
structure LoopEnv where
  fetch : Nat → Rollout
  create : Nat → Rollout
  batch : Nat → BatchRunResp

/-- Loop state: the advancement cursor `i`, the numbers of `getRollout`,
`createRollout` and `batchRun` calls issued so far, and the event trace. -/
structure LoopState where
  i : Nat
  nFetch : Nat
  nCreate : Nat
  nBatch : Nat
  trace : List Event
deriving Repr

/-- How the loop ends.  `success stage` is the early return taken when the
stage at the cursor is done and its environment equals the target (the
returned stage is the classified one); `fellThrough` is the normal return
taken when `i` reaches the stage count (or the stage count is zero);
`failed` is a thrown error; `stuck` is a `TypeError` crash on an
`undefined` access; `outOfFuel` means the iteration bound was exhausted. -/
inductive Outcome
  | success (stage : Stage)
  | fellThrough
  | failed (msg : String)
  | stuck
  | outOfFuel
deriving DecidableEq, Repr

/-- Result of one execution of the loop body: halt with an outcome and the
final trace, or continue with the next state. -/
inductive Step
  | halt (o : Outcome) (trace : List Event)
  | next (s : LoopState)
deriving Repr

/-- The trace carried by a `Step`. -/
def stepTrace : Step → List Event
  | .halt _ tr => tr
  | .next s => s.trace

/-- Embedding of `rolloutPreview.stages[i].environment` (with `""` for an out-of-range
index, which the loop never uses). -/
def previewEnvAt (preview : List Stage) (i : Nat) : String :=
  ((preview.get? i).map Stage.environment).getD ""

/-- Embedding of `(r.stages?.length ?? 0) <= i` for the current fetch response: the stage
at the cursor is not materialized yet and must be created. -/
def fetchNeedsCreate (env : LoopEnv) (s : LoopState) : Bool :=
  decide (((env.fetch s.nFetch).stages.getD []).length ≤ s.i)

/-- The rollout the body works on after the lazy-creation step: the fetched
one, or the one returned by the stage-creating `createRollout` call. -/
def effRollout (env : LoopEnv) (s : LoopState) : Rollout :=
  if fetchNeedsCreate env s then env.create s.nCreate else env.fetch s.nFetch

/-- The events every iteration starts with: the fetch, followed by the
stage-creation call when one is issued. -/
def fetchEvents (env : LoopEnv) (preview : List Stage) (s : LoopState) : List Event :=
  Event.getRollout s.i ::
    (if fetchNeedsCreate env s then [Event.createStage s.i (previewEnvAt preview s.i)] else [])

/-- The `createRollout` call counter after the lazy-creation step. -/
def nCreateNext (env : LoopEnv) (s : LoopState) : Nat :=
  if fetchNeedsCreate env s then s.nCreate + 1 else s.nCreate

/-- The error message thrown when a stage has failed tasks
(`` `task ${failedTasks.map(e => e.name)} failed` ``; the JavaScript array
interpolation joins the names with commas). -/
def taskFailMsg (failedTasks : List Task) : String :=
  "task " ++ String.intercalate "," (failedTasks.map Task.name) ++ " failed"

/-- One iteration of the `while (true)` body of `waitRollout`:

```
if (i >= stageCount) { break }
let r = await getRollout(c, rolloutName)
if ((r.stages?.length ?? 0) <= i) {
  r = await createRollout(c, project, rolloutPreview.plan, false,
                          rolloutPreview.stages[i].environment)
}
const stage = r.stages[i]
const { done, failedTasks } = getStageStatus(stage)
if (done) {
  if (stage.environment === targetStage) { return }
  i++
  continue
}
if (failedTasks.length > 0) { throw new Error(...) }
await runStageTasks(c, stage)
await sleep(5000)
``` -/
def loopBody (env : LoopEnv) (preview : List Stage) (target : String)
    (s : LoopState) : Step :=
  if preview.length ≤ s.i then .halt .fellThrough s.trace
  else
    match ((effRollout env s).stages.getD []).get? s.i with
    | none => .halt .stuck (s.trace ++ fetchEvents env preview s)
    | some stage =>
      match getStageStatus stage with
      | none => .halt .stuck (s.trace ++ fetchEvents env preview s)
      | some st =>
        if st.done then
          if stage.environment == target then
            .halt (.success stage) (s.trace ++ fetchEvents env preview s)
          else
            .next ⟨s.i + 1, s.nFetch + 1, nCreateNext env s, s.nBatch,
                   s.trace ++ fetchEvents env preview s⟩
        else if st.failedTasks.isEmpty then
          match runStageTasks stage (env.batch s.nBatch) with
          | (.crashed, _) => .halt .stuck (s.trace ++ fetchEvents env preview s)
          | (.err m, _) =>
              .halt (.failed m)
                (s.trace ++ fetchEvents env preview s ++
                  [Event.batchRun s.i stage.name (notStartedNames stage)])
          | (.ok, called) =>
              .next ⟨s.i, s.nFetch + 1, nCreateNext env s,
                     s.nBatch + (if called then 1 else 0),
                     s.trace ++ fetchEvents env preview s ++
                       (if called then [Event.batchRun s.i stage.name (notStartedNames stage)]
                        else []) ++ [Event.sleepPoll s.i]⟩
        else .halt (.failed (taskFailMsg st.failedTasks)) (s.trace ++ fetchEvents env preview s)

/-- Fuel-indexed iteration of `loopBody`. -/
def waitLoopAux (env : LoopEnv) (preview : List Stage) (target : String) :
    Nat → LoopState → Outcome × List Event
  | 0, s => (.outOfFuel, s.trace)
  | fuel + 1, s =>
      match loopBody env preview target s with
      | .halt o tr => (o, tr)
      | .next s' => waitLoopAux env preview target fuel s'

/-- The initial loop state. -/
def initialState : LoopState := ⟨0, 0, 0, 0, []⟩

/-- Embedding of `waitRollout` from the source: immediate return on a zero-stage preview,
otherwise the polling loop from cursor 0. -/
def waitRollout (env : LoopEnv) (preview : List Stage) (target : String)
    (fuel : Nat) : Outcome × List Event :=
  if preview.length = 0 then (.fellThrough, [])
  else waitLoopAux env preview target fuel initialState

/-! ## Predicates and concrete oracles used by the loop claims -/

/-- A rollout reported by the platform is consistent with the preview: any
stage it carries at index `j` has the environment the preview's stage `j`
has (spec §3: stage order in the preview and in the materialized rollout
are identical and index-addressable). -/
def agreesWithPreview (preview : List Stage) (r : Rollout) : Prop :=
  ∀ j stage, (r.stages.getD []).get? j = some stage →
    (preview.get? j).map Stage.environment = some stage.environment

/-- Every response of the oracle is consistent with the preview. -/
def envAgrees (preview : List Stage) (env : LoopEnv) : Prop :=
  (∀ k, agreesWithPreview preview (env.fetch k)) ∧
  (∀ k, agreesWithPreview preview (env.create k))

/-- Events a single loop iteration may append: they are all tagged with the
current cursor, and any stage-creation event targets the preview's
environment at that cursor. -/
def NewEventsAt (preview : List Stage) (i : Nat) (l : List Event) : Prop :=
  ∀ ev ∈ l, ev.index = i ∧
    ∀ j e, ev = Event.createStage j e → j = i ∧ e = previewEnvAt preview j

/-- Trace invariant for the `[A, B, C]`/target-`B` scenario: every recorded
event was issued at a cursor below the bound, and every stage-creation
event targets the preview environment at its cursor. -/
def TraceBelow (preview : List Stage) (bound : Nat) (trace : List Event) : Prop :=
  ∀ ev ∈ trace, ev.index ≤ bound ∧
    ∀ j e, ev = Event.createStage j e → e = previewEnvAt preview j

/-- Concrete stage A for witnesses: done task, environment `test`. -/
def stageAW : Stage :=
  ⟨"stages/101", "environments/test", some [⟨"tasks/1", TaskStatus.DONE⟩]⟩

/-- Concrete stage B for witnesses: done task, environment `staging`. -/
def stageBW : Stage :=
  ⟨"stages/102", "environments/staging", some [⟨"tasks/2", TaskStatus.DONE⟩]⟩

/-- Concrete stage C for witnesses: untouched task, environment `prod`. -/
def stageCW : Stage :=
  ⟨"stages/103", "environments/prod", some [⟨"tasks/3", TaskStatus.NOT_STARTED⟩]⟩

/-- Concrete response oracle: every fetch and create reports stages A and B
(consistent with the `[A, B, C]` preview), batch-runs succeed. -/
def loopEnvW : LoopEnv where
  fetch := fun _ =>
    ⟨"projects/p/rollouts/1", "projects/p/plans/1", some [stageAW, stageBW]⟩
  create := fun _ =>
    ⟨"projects/p/rollouts/1", "projects/p/plans/1", some [stageAW, stageBW]⟩
  batch := fun _ => .resp 200 ""

/-- Witness for C10: the concrete oracle fetches a rollout with no `stages`
field, so the first iteration requests stage creation; the created rollout
carries stage A with a task list, so the iteration is not stuck. -/
def loopEnvC10 : LoopEnv where
  fetch := fun _ => ⟨"projects/p/rollouts/1", "projects/p/plans/1", none⟩
  create := fun _ =>
    ⟨"projects/p/rollouts/1", "projects/p/plans/1", some [stageAW, stageBW]⟩
  batch := fun _ => .resp 200 ""

/-! ## Claims about the classifier and the batch-run step -/

/-- C1: for every stage (with a task list `ts`), the classifier's `done`
result is true iff every task of the stage has status DONE or SKIPPED; in
particular a stage with zero tasks is vacuously done, and any FAILED or
in-flight status makes it false. -/
theorem claim1_done_iff (stage : Stage) (ts : List Task)
    (h : stage.tasks = some ts) :
    ∃ st, getStageStatus stage = some st ∧
      (st.done = true ↔
        ∀ t ∈ ts, t.status = TaskStatus.DONE ∨ t.status = TaskStatus.SKIPPED) := by
  unfold getStageStatus
  rw [h]
  refine ⟨_, rfl, ?_⟩
  simp [List.all_eq_true]

/-- Witness for C1: the classifier applied to a concrete stage with zero
tasks. -/
theorem claim1_done_iff_witness :
    ∃ st, getStageStatus ⟨"stages/1", "environments/test", some []⟩ = some st ∧
      (st.done = true ↔
        ∀ t ∈ ([] : List Task),
          t.status = TaskStatus.DONE ∨ t.status = TaskStatus.SKIPPED) :=
  claim1_done_iff ⟨"stages/1", "environments/test", some []⟩ [] rfl

/-- C9: for every stage (with a task list `ts`), the classifier's
`failedTasks` result is exactly the order-preserving subsequence of `ts`
consisting of the FAILED tasks. -/
theorem claim9_failed_tasks (stage : Stage) (ts : List Task)
    (h : stage.tasks = some ts) :
    ∃ st, getStageStatus stage = some st ∧
      st.failedTasks = ts.filter (fun t => t.status == TaskStatus.FAILED) ∧
      st.failedTasks.Sublist ts ∧
      (∀ t ∈ st.failedTasks, t.status = TaskStatus.FAILED) ∧
      (∀ t ∈ ts, t.status = TaskStatus.FAILED → t ∈ st.failedTasks) := by
  unfold getStageStatus
  rw [h]
  refine ⟨_, rfl, rfl, List.filter_sublist ts, ?_, ?_⟩
  · intro t ht
    simpa using (List.mem_filter.mp ht).2
  · intro t ht hf
    exact List.mem_filter.mpr ⟨ht, by simpa using hf⟩

/-- Witness for C9: the classifier applied to a concrete stage whose task
list interleaves FAILED and non-FAILED tasks. -/
theorem claim9_failed_tasks_witness :
    ∃ st,
      getStageStatus ⟨"stages/1", "environments/test",
        some [⟨"t1", TaskStatus.FAILED⟩, ⟨"t2", TaskStatus.DONE⟩,
              ⟨"t3", TaskStatus.FAILED⟩]⟩ = some st ∧
      st.failedTasks =
        ([⟨"t1", TaskStatus.FAILED⟩, ⟨"t2", TaskStatus.DONE⟩,
          ⟨"t3", TaskStatus.FAILED⟩] : List Task).filter
            (fun t => t.status == TaskStatus.FAILED) ∧
      st.failedTasks.Sublist
        [⟨"t1", TaskStatus.FAILED⟩, ⟨"t2", TaskStatus.DONE⟩,
         ⟨"t3", TaskStatus.FAILED⟩] ∧
      (∀ t ∈ st.failedTasks, t.status = TaskStatus.FAILED) ∧
      (∀ t ∈ ([⟨"t1", TaskStatus.FAILED⟩, ⟨"t2", TaskStatus.DONE⟩,
               ⟨"t3", TaskStatus.FAILED⟩] : List Task),
         t.status = TaskStatus.FAILED → t ∈ st.failedTasks) :=
  claim9_failed_tasks _ _ rfl

/-- C2: whenever the batch-run step actually issues its network call (the
stage has at least one NOT_STARTED task) and that call fails — by a thrown
client error with message `m`, or by a non-200 response whose resulting
error message is `batchRunErrMsg code msg` — the error is swallowed (the
step completes normally and the loop continues) exactly when the message
contains the recognized conflict substring, and propagates otherwise. -/
theorem claim2_conflict_swallowed (stage : Stage) (ts : List Task)
    (h : stage.tasks = some ts)
    (hcall : (ts.filter fun e => e.status == TaskStatus.NOT_STARTED) ≠ [])
    (m : String) (code : Nat) (msg : String) (hcode : code ≠ 200) :
    runStageTasks stage (.thrown m) =
      (if stringIncludes m conflictMessage then (.ok, true) else (.err m, true)) ∧
    runStageTasks stage (.resp code msg) =
      (if stringIncludes (batchRunErrMsg code msg) conflictMessage then (.ok, true)
       else (.err (batchRunErrMsg code msg), true)) := by
  unfold runStageTasks
  rw [h]
  simp only [List.length_map]
  have hlen : ((ts.filter fun e => e.status == TaskStatus.NOT_STARTED).length == 0) = false := by
    simp [List.length_eq_zero, hcall]
  simp [hlen, hcode]

/-- Witness for C2: a concrete stage with one NOT_STARTED task, a thrown
conflict message, and a 409 response with a non-conflict message. -/
theorem claim2_conflict_swallowed_witness :
    runStageTasks ⟨"stages/1", "environments/test",
        some [⟨"t1", TaskStatus.NOT_STARTED⟩]⟩ (.thrown conflictMessage) =
      (if stringIncludes conflictMessage conflictMessage then (.ok, true)
       else (.err conflictMessage, true)) ∧
    runStageTasks ⟨"stages/1", "environments/test",
        some [⟨"t1", TaskStatus.NOT_STARTED⟩]⟩ (.resp 409 "boom") =
      (if stringIncludes (batchRunErrMsg 409 "boom") conflictMessage then (.ok, true)
       else (.err (batchRunErrMsg 409 "boom"), true)) :=
  claim2_conflict_swallowed _ _ rfl (by decide) conflictMessage 409 "boom" (by decide)

/-- C8: for every stage in which no task has status NOT_STARTED, the
batch-run step performs no network call (second component `false`) and
completes without effect, whatever the would-be response. -/
theorem claim8_no_not_started_no_call (stage : Stage) (ts : List Task)
    (h : stage.tasks = some ts)
    (hns : ∀ t ∈ ts, t.status ≠ TaskStatus.NOT_STARTED) (resp : BatchRunResp) :
    runStageTasks stage resp = (.ok, false) := by
  unfold runStageTasks
  rw [h]
  have hfil : ts.filter (fun e => e.status == TaskStatus.NOT_STARTED) = [] := by
    rw [List.filter_eq_nil_iff]
    intro t ht
    simpa using hns t ht
  simp [hfil]

/-- Witness for C8: a concrete stage whose tasks are DONE and RUNNING. -/
theorem claim8_no_not_started_no_call_witness :
    runStageTasks ⟨"stages/1", "environments/test",
        some [⟨"t1", TaskStatus.DONE⟩, ⟨"t2", TaskStatus.RUNNING⟩]⟩
      (.thrown "boom") = (.ok, false) :=
  claim8_no_not_started_no_call _ _ rfl (by decide) (.thrown "boom")

/-- C7: if the cancellation handler runs before any rollout has been created
by this process (the handle is still unset), it performs zero remote calls
and is a pure no-op, whatever the remote responses would have been. -/
theorem claim7_cancel_before_create_noop (env : CancelEnv) :
    cancelRollout none env = (.noop, []) := rfl

/-! ## Claims about the cancellation handler -/

/-- A successful stage-id derivation takes its result from the **last**
task-run of the list (the loop overwrites `stageId` on every iteration). -/
theorem deriveStageId_ok_last (runs : List TaskRun) (acc sid : String)
    (hne : runs ≠ []) (h : deriveStageId runs acc = .ok sid) :
    ∃ lastRun, runs.getLast? = some lastRun ∧ findStageId lastRun.name = some sid := by
  induction runs generalizing acc with
  | nil => exact absurd rfl hne
  | cons r rest ih =>
    unfold deriveStageId at h
    cases hfind : findStageId r.name with
    | none => rw [hfind] at h; cases h
    | some sid0 =>
      rw [hfind] at h
      cases rest with
      | nil =>
        unfold deriveStageId at h
        split at h
        · cases h
        · cases h
          exact ⟨r, rfl, hfind⟩
      | cons r2 rest2 =>
        obtain ⟨lastRun, h1, h2⟩ := ih sid0 (by simp) h
        exact ⟨lastRun, by rw [List.getLast?_cons_cons]; exact h1, h2⟩

/-- Counterexample to C5 as stated: with the rollout handle set and the
task-run listing answering with status code 500, the error is **thrown out
of the cancellation handler** (outcome `thrown`, not a logged warning). -/
theorem claim5_counterexample :
    cancelRollout (some "projects/p/rollouts/1")
        { listStatusCode := 500, listResult := none, cancelThrows := none } =
      (.thrown "failed to list task runs, status code: 500", [.listTaskRuns]) := by
  decide

/-- C5 amended: only failures of the batch-cancel request itself are caught
and reported as a warning (the handler still completes); failures while
listing task-runs (non-200 status or missing body) and failures while
deriving the stage identifier are raised out of the cancellation handler. -/
theorem claim5_amended (cr : String) (hcr : cr ≠ "") (code : Nat)
    (res : Option (List TaskRun)) (cth : Option String) :
    (code ≠ 200 →
      cancelRollout (some cr) ⟨code, res, cth⟩ =
        (.thrown ("failed to list task runs, status code: " ++ toString code),
         [.listTaskRuns])) ∧
    (res = none →
      cancelRollout (some cr) ⟨200, res, cth⟩ =
        (.thrown "list task runs not found", [.listTaskRuns])) ∧
    (∀ allRuns em, res = some allRuns →
      deriveStageId
        (allRuns.filter fun t =>
          t.status == TaskRunStatus.PENDING || t.status == TaskRunStatus.RUNNING) ""
        = .error em →
      (allRuns.filter fun t =>
          t.status == TaskRunStatus.PENDING || t.status == TaskRunStatus.RUNNING) ≠ [] →
      cancelRollout (some cr) ⟨200, res, cth⟩ = (.thrown em, [.listTaskRuns])) ∧
    (∀ allRuns sid em, res = some allRuns → cth = some em →
      deriveStageId
        (allRuns.filter fun t =>
          t.status == TaskRunStatus.PENDING || t.status == TaskRunStatus.RUNNING) ""
        = .ok sid →
      (allRuns.filter fun t =>
          t.status == TaskRunStatus.PENDING || t.status == TaskRunStatus.RUNNING) ≠ [] →
      cancelRollout (some cr) ⟨200, res, cth⟩ =
        (.canceled true,
         [.listTaskRuns,
          .batchCancel sid
            ((allRuns.filter fun t =>
                t.status == TaskRunStatus.PENDING ||
                  t.status == TaskRunStatus.RUNNING).map TaskRun.name)])) := by
  have hcr' : (cr == "") = false := beq_eq_false_iff_ne.mpr hcr
  refine ⟨?_, ?_, ?_, ?_⟩
  · intro hcode
    have : (code != 200) = true := by simpa using hcode
    simp [cancelRollout, hcr', this]
  · intro hres
    subst hres
    simp [cancelRollout, hcr']
  · intro allRuns em hres hderive hne
    subst hres
    have hlen : ((allRuns.filter fun t =>
        t.status == TaskRunStatus.PENDING || t.status == TaskRunStatus.RUNNING).length == 0)
        = false := by
      simp [List.length_eq_zero, hne]
    simp [cancelRollout, hcr', hlen, hderive]
  · intro allRuns sid em hres hcth hderive hne
    subst hres; subst hcth
    have hlen : ((allRuns.filter fun t =>
        t.status == TaskRunStatus.PENDING || t.status == TaskRunStatus.RUNNING).length == 0)
        = false := by
      simp [List.length_eq_zero, hne]
    simp [cancelRollout, hcr', hlen, hderive]

/-- Witness for the amended C5: status code 500 and a rollout handle. -/
theorem claim5_amended_witness :
    (500 ≠ 200 →
      cancelRollout (some "projects/p/rollouts/1") ⟨500, none, none⟩ =
        (.thrown ("failed to list task runs, status code: " ++ toString 500),
         [.listTaskRuns])) ∧
    ((none : Option (List TaskRun)) = none →
      cancelRollout (some "projects/p/rollouts/1") ⟨200, none, none⟩ =
        (.thrown "list task runs not found", [.listTaskRuns])) ∧
    (∀ allRuns em, (none : Option (List TaskRun)) = some allRuns →
      deriveStageId
        (allRuns.filter fun t =>
          t.status == TaskRunStatus.PENDING || t.status == TaskRunStatus.RUNNING) ""
        = .error em →
      (allRuns.filter fun t =>
          t.status == TaskRunStatus.PENDING || t.status == TaskRunStatus.RUNNING) ≠ [] →
      cancelRollout (some "projects/p/rollouts/1") ⟨200, none, none⟩ =
        (.thrown em, [.listTaskRuns])) ∧
    (∀ allRuns sid em, (none : Option (List TaskRun)) = some allRuns →
      (none : Option String) = some em →
      deriveStageId
        (allRuns.filter fun t =>
          t.status == TaskRunStatus.PENDING || t.status == TaskRunStatus.RUNNING) ""
        = .ok sid →
      (allRuns.filter fun t =>
          t.status == TaskRunStatus.PENDING || t.status == TaskRunStatus.RUNNING) ≠ [] →
      cancelRollout (some "projects/p/rollouts/1") ⟨200, none, none⟩ =
        (.canceled true,
         [.listTaskRuns,
          .batchCancel sid
            ((allRuns.filter fun t =>
                t.status == TaskRunStatus.PENDING ||
                  t.status == TaskRunStatus.RUNNING).map TaskRun.name)])) :=
  claim5_amended "projects/p/rollouts/1" (by decide) 500 none none

/-- Counterexample to C6 as stated: two PENDING/RUNNING task-runs under
**different** stages; the single batch-cancel call uses the stage id of the
**last** task-run (`stages/2`), although the first task-run's name yields
`stages/1`. -/
theorem claim6_counterexample :
    cancelRollout (some "projects/p/rollouts/1")
        { listStatusCode := 200,
          listResult := some
            [⟨"projects/p/rollouts/1/stages/1/tasks/1/taskRuns/1", .RUNNING⟩,
             ⟨"projects/p/rollouts/1/stages/2/tasks/2/taskRuns/2", .PENDING⟩],
          cancelThrows := none } =
      (.canceled false,
       [.listTaskRuns,
        .batchCancel "stages/2"
          ["projects/p/rollouts/1/stages/1/tasks/1/taskRuns/1",
           "projects/p/rollouts/1/stages/2/tasks/2/taskRuns/2"]]) ∧
    findStageId "projects/p/rollouts/1/stages/1/tasks/1/taskRuns/1" =
      some "stages/1" := by
  decide

/-- C6 amended: when cancellation finds at least one PENDING or RUNNING
task-run and every one of them carries a stage id in its name, it derives
the owning stage identifier from the **last** matching task-run's name and
issues exactly one batch-cancel request covering all matching task-run
names (in particular, two task-runs under the same stage yield one call
naming both). -/
theorem claim6_amended (cr : String) (hcr : cr ≠ "") (allRuns : List TaskRun)
    (cth : Option String) (sid : String)
    (hne : (allRuns.filter fun t =>
        t.status == TaskRunStatus.PENDING || t.status == TaskRunStatus.RUNNING) ≠ [])
    (hsid : deriveStageId
        (allRuns.filter fun t =>
          t.status == TaskRunStatus.PENDING || t.status == TaskRunStatus.RUNNING) ""
        = .ok sid) :
    ∃ lastRun,
      (allRuns.filter fun t =>
          t.status == TaskRunStatus.PENDING ||
            t.status == TaskRunStatus.RUNNING).getLast? = some lastRun ∧
      findStageId lastRun.name = some sid ∧
      (cancelRollout (some cr) ⟨200, some allRuns, cth⟩).2 =
        [.listTaskRuns,
         .batchCancel sid
           ((allRuns.filter fun t =>
               t.status == TaskRunStatus.PENDING ||
                 t.status == TaskRunStatus.RUNNING).map TaskRun.name)] := by
  obtain ⟨lastRun, h1, h2⟩ := deriveStageId_ok_last _ _ _ hne hsid
  refine ⟨lastRun, h1, h2, ?_⟩
  have hcr' : (cr == "") = false := beq_eq_false_iff_ne.mpr hcr
  have hlen : ((allRuns.filter fun t =>
      t.status == TaskRunStatus.PENDING || t.status == TaskRunStatus.RUNNING).length == 0)
      = false := by
    simp [List.length_eq_zero, hne]
  cases cth with
  | none => simp [cancelRollout, hcr', hlen, hsid]
  | some m => simp [cancelRollout, hcr', hlen, hsid]

/-- Witness for the amended C6: two RUNNING task-runs under the same stage
result in one batch-cancel call naming both. -/
theorem claim6_amended_witness :
    ∃ lastRun,
      (([⟨"projects/p/rollouts/1/stages/7/tasks/1/taskRuns/1", .RUNNING⟩,
         ⟨"projects/p/rollouts/1/stages/7/tasks/2/taskRuns/2", .RUNNING⟩] :
          List TaskRun).filter fun t =>
          t.status == TaskRunStatus.PENDING ||
            t.status == TaskRunStatus.RUNNING).getLast? = some lastRun ∧
      findStageId lastRun.name = some "stages/7" ∧
      (cancelRollout (some "projects/p/rollouts/1")
          ⟨200,
           some [⟨"projects/p/rollouts/1/stages/7/tasks/1/taskRuns/1", .RUNNING⟩,
                 ⟨"projects/p/rollouts/1/stages/7/tasks/2/taskRuns/2", .RUNNING⟩],
           none⟩).2 =
        [.listTaskRuns,
         .batchCancel "stages/7"
           ((([⟨"projects/p/rollouts/1/stages/7/tasks/1/taskRuns/1", .RUNNING⟩,
               ⟨"projects/p/rollouts/1/stages/7/tasks/2/taskRuns/2", .RUNNING⟩] :
                List TaskRun).filter fun t =>
               t.status == TaskRunStatus.PENDING ||
                 t.status == TaskRunStatus.RUNNING).map TaskRun.name)] :=
  claim6_amended "projects/p/rollouts/1" (by decide) _ none "stages/7"
    (by decide) (by rfl)

/-! ## Claim about target-stage validation -/

/-- C3: if the requested target stage's environment does not occur in the
preview's stage list, `run` fails before the non-validate-only rollout
creation — no remote mutation is issued (second component `false`) — and
the failure message enumerates every stage environment of the preview
(`targetNotFoundMsg` appends the newline-joined list of all of them). -/
theorem claim3_target_not_found (preview : Rollout) (stages : List Stage)
    (targetStage : String) (createResp : Except String Rollout)
    (h : preview.stages = some stages)
    (habsent : ∀ st ∈ stages, st.environment ≠ targetStage) :
    runAfterPreview preview targetStage createResp =
      (.failed ("target stage " ++ targetStage ++ " not found\navailable stages:\n" ++
        String.intercalate "\n" (stages.map Stage.environment)), false) := by
  unfold runAfterPreview
  rw [h]
  have hany : (stages.any fun e => e.environment == targetStage) = false := by
    rw [List.any_eq_false]
    intro st hst
    simpa using habsent st hst
  simp [hany, targetNotFoundMsg]

/-- Witness for C3: a two-stage preview not containing the requested
target. -/
theorem claim3_target_not_found_witness :
    runAfterPreview
        ⟨"", "projects/p/plans/1",
         some [⟨"", "environments/test", none⟩, ⟨"", "environments/staging", none⟩]⟩
        "environments/prod" (.ok ⟨"projects/p/rollouts/1", "", none⟩) =
      (.failed ("target stage " ++ "environments/prod" ++
        " not found\navailable stages:\n" ++
        String.intercalate "\n"
          (([⟨"", "environments/test", none⟩, ⟨"", "environments/staging", none⟩] :
              List Stage).map Stage.environment)), false) :=
  claim3_target_not_found _ _ "environments/prod" _ rfl (by decide)

/-! ## Claims about the progression loop -/

theorem effRollout_agrees (preview : List Stage) (env : LoopEnv) (s : LoopState)
    (h : envAgrees preview env) : agreesWithPreview preview (effRollout env s) := by
  unfold effRollout
  split
  · exact h.2 s.nCreate
  · exact h.1 s.nFetch

theorem newEventsAt_nil (preview : List Stage) (i : Nat) :
    NewEventsAt preview i [] := by
  intro ev hev
  exact absurd hev (List.not_mem_nil ev)

theorem newEventsAt_append {preview : List Stage} {i : Nat} {l₁ l₂ : List Event}
    (h₁ : NewEventsAt preview i l₁) (h₂ : NewEventsAt preview i l₂) :
    NewEventsAt preview i (l₁ ++ l₂) := by
  intro ev hev
  rcases List.mem_append.mp hev with h | h
  · exact h₁ ev h
  · exact h₂ ev h

theorem newEventsAt_fetchEvents (env : LoopEnv) (preview : List Stage)
    (s : LoopState) : NewEventsAt preview s.i (fetchEvents env preview s) := by
  intro ev hev
  unfold fetchEvents at hev
  rcases List.mem_cons.mp hev with h | h
  · subst h
    exact ⟨rfl, by intro j e h; cases h⟩
  · split at h
    · rcases List.mem_singleton.mp h with rfl
      exact ⟨rfl, by intro j e h; cases h; exact ⟨rfl, rfl⟩⟩
    · exact absurd h (List.not_mem_nil ev)

theorem newEventsAt_batchRun (preview : List Stage) (i : Nat) (n : String)
    (tns : List String) : NewEventsAt preview i [Event.batchRun i n tns] := by
  intro ev hev
  rcases List.mem_singleton.mp hev with rfl
  exact ⟨rfl, by intro j e h; cases h⟩

theorem newEventsAt_sleep (preview : List Stage) (i : Nat) :
    NewEventsAt preview i [Event.sleepPoll i] := by
  intro ev hev
  rcases List.mem_singleton.mp hev with rfl
  exact ⟨rfl, by intro j e h; cases h⟩

/-- Whatever one loop iteration does, its resulting trace extends the
incoming trace by events issued at the current cursor only. -/
theorem loopBody_trace_shape (env : LoopEnv) (preview : List Stage)
    (target : String) (s : LoopState) :
    ∃ l, NewEventsAt preview s.i l ∧
      stepTrace (loopBody env preview target s) = s.trace ++ l := by
  unfold loopBody
  split
  · exact ⟨[], newEventsAt_nil preview s.i, by simp [stepTrace]⟩
  · split
    · exact ⟨_, newEventsAt_fetchEvents env preview s, by simp [stepTrace]⟩
    · split
      · exact ⟨_, newEventsAt_fetchEvents env preview s, by simp [stepTrace]⟩
      · split
        · split
          · exact ⟨_, newEventsAt_fetchEvents env preview s, by simp [stepTrace]⟩
          · exact ⟨_, newEventsAt_fetchEvents env preview s, by simp [stepTrace]⟩
        · split
          · split
            · exact ⟨_, newEventsAt_fetchEvents env preview s, by simp [stepTrace]⟩
            · simp only [stepTrace, List.append_assoc]
              refine ⟨_, ?_, rfl⟩
              exact newEventsAt_append (newEventsAt_fetchEvents env preview s)
                (newEventsAt_batchRun preview s.i _ _)
            · simp only [stepTrace, List.append_assoc]
              refine ⟨_, ?_, rfl⟩
              refine newEventsAt_append (newEventsAt_fetchEvents env preview s)
                (newEventsAt_append ?_ (newEventsAt_sleep preview s.i))
              split
              · exact newEventsAt_batchRun preview s.i _ _
              · exact newEventsAt_nil preview s.i
          · exact ⟨_, newEventsAt_fetchEvents env preview s, by simp [stepTrace]⟩

/-- A batch-run step over a stage that does carry a task list never crashes
with a `TypeError`. -/
theorem runStageTasks_not_crashed (stage : Stage) (ts : List Task)
    (resp : BatchRunResp) (h : stage.tasks = some ts) :
    (runStageTasks stage resp).1 ≠ .crashed := by
  unfold runStageTasks
  rw [h]
  dsimp only
  split
  · simp
  · split
    · simp
    · split <;> simp

/-- C10: in each poll iteration (`s.i < preview.length`), a fetched rollout
without a `stages` field is treated as having zero stages, so the iteration
issues a stage-creation request; and the subsequent access to the stage at
index `i` and to its task list is unguarded — the iteration avoids the
`TypeError` crash (`stuck`) exactly when the effective rollout carries a
stage at index `i` (hence at least `i+1` stages) and that stage carries a
task array. -/
theorem claim10_unguarded_stage_access (env : LoopEnv) (preview : List Stage)
    (target : String) (s : LoopState) (hin : s.i < preview.length) :
    ((env.fetch s.nFetch).stages = none →
      Event.createStage s.i (previewEnvAt preview s.i) ∈
        stepTrace (loopBody env preview target s)) ∧
    ((∀ tr, loopBody env preview target s ≠ .halt .stuck tr) ↔
      ∃ stage ts, ((effRollout env s).stages.getD []).get? s.i = some stage ∧
        stage.tasks = some ts) := by
  constructor
  · intro hn
    have hneed : fetchNeedsCreate env s = true := by
      unfold fetchNeedsCreate
      rw [hn]
      simp
    have hfe : Event.createStage s.i (previewEnvAt preview s.i) ∈
        fetchEvents env preview s := by
      simp [fetchEvents, hneed]
    unfold loopBody
    rw [if_neg (not_le.mpr hin)]
    split
    · simp [stepTrace, hfe]
    · split
      · simp [stepTrace, hfe]
      · split
        · split
          · simp [stepTrace, hfe]
          · simp [stepTrace, hfe]
        · split
          · split
            · simp [stepTrace, hfe]
            · simp [stepTrace, hfe]
            · simp [stepTrace, hfe]
          · simp [stepTrace, hfe]
  · constructor
    · intro hns
      by_cases hget : ∃ stage, ((effRollout env s).stages.getD []).get? s.i = some stage
      · obtain ⟨stage, hstage⟩ := hget
        by_cases hts : ∃ ts, stage.tasks = some ts
        · obtain ⟨ts, hts⟩ := hts
          exact ⟨stage, ts, hstage, hts⟩
        · exfalso
          have hts' : stage.tasks = none := by
            cases h : stage.tasks with
            | none => rfl
            | some ts => exact absurd ⟨ts, h⟩ hts
          have hgss : getStageStatus stage = none := by
            unfold getStageStatus
            rw [hts']
          apply hns (s.trace ++ fetchEvents env preview s)
          unfold loopBody
          rw [if_neg (not_le.mpr hin), hstage]
          dsimp only
          rw [hgss]
      · have hnone : ((effRollout env s).stages.getD []).get? s.i = none := by
          cases h : ((effRollout env s).stages.getD []).get? s.i with
          | none => rfl
          | some stage => exact absurd ⟨stage, h⟩ hget
        exfalso
        apply hns (s.trace ++ fetchEvents env preview s)
        unfold loopBody
        rw [if_neg (not_le.mpr hin), hnone]
    · rintro ⟨stage, ts, hstage, hts⟩ tr h
      have hnc := runStageTasks_not_crashed stage ts (env.batch s.nBatch) hts
      have hgss : getStageStatus stage = some
          ⟨ts.all fun e => e.status == TaskStatus.DONE || e.status == TaskStatus.SKIPPED,
           ts.filter fun e => e.status == TaskStatus.FAILED⟩ := by
        unfold getStageStatus
        rw [hts]
      unfold loopBody at h
      rw [if_neg (not_le.mpr hin), hstage] at h
      dsimp only at h
      rw [hgss] at h
      dsimp only at h
      rcases hrun : runStageTasks stage (env.batch s.nBatch) with ⟨o, called⟩
      rw [hrun] at h
      split at h
      · split at h
        · simp at h
        · simp at h
      · split at h
        · cases o with
          | crashed => exact hnc (by rw [hrun])
          | ok => simp at h
          | err m => simp at h
        · simp at h

/-- A classified-done stage carries a task list on which the classifier's
`done` computation is true. -/
theorem getStageStatus_done_ex (stage : Stage) (st : StageStatus)
    (h : getStageStatus stage = some st) (hd : st.done = true) :
    ∃ ts, stage.tasks = some ts ∧
      (ts.all fun e => e.status == TaskStatus.DONE || e.status == TaskStatus.SKIPPED) = true := by
  unfold getStageStatus at h
  cases hts : stage.tasks with
  | none => rw [hts] at h; cases h
  | some ts =>
      rw [hts] at h
      cases h
      exact ⟨ts, rfl, hd⟩

/-- Inversion of the success exit of a loop iteration: the loop returns
`success stg` only when the effective rollout's stage at the cursor is
`stg`, its environment equals the target, it is classified done, and only
the fetch (and possibly the stage-creation) events of this iteration were
appended — no batch-run and no sleep. -/
theorem loopBody_success_inv (env : LoopEnv) (preview : List Stage)
    (target : String) (s : LoopState) (stg : Stage) (tr : List Event)
    (h : loopBody env preview target s = .halt (.success stg) tr) :
    ((effRollout env s).stages.getD []).get? s.i = some stg ∧
    (stg.environment == target) = true ∧
    (∃ ts, stg.tasks = some ts ∧
      (ts.all fun e => e.status == TaskStatus.DONE || e.status == TaskStatus.SKIPPED) = true) ∧
    tr = s.trace ++ fetchEvents env preview s := by
  unfold loopBody at h
  by_cases hlen : preview.length ≤ s.i
  · rw [if_pos hlen] at h
    simp at h
  rw [if_neg hlen] at h
  cases hget : ((effRollout env s).stages.getD []).get? s.i with
  | none => rw [hget] at h; simp at h
  | some stage =>
    rw [hget] at h
    dsimp only at h
    cases hgss : getStageStatus stage with
    | none => rw [hgss] at h; simp at h
    | some stst =>
      rw [hgss] at h
      dsimp only at h
      by_cases hdone : stst.done = true
      · rw [if_pos hdone] at h
        by_cases hbeq : (stage.environment == target) = true
        · rw [if_pos hbeq] at h
          injection h with h1 h2
          injection h1 with h1
          subst h1
          exact ⟨rfl, hbeq, getStageStatus_done_ex stage stst hgss hdone, h2.symm⟩
        · rw [if_neg hbeq] at h
          simp at h
      · rw [if_neg hdone] at h
        by_cases hfe : stst.failedTasks.isEmpty = true
        · rw [if_pos hfe] at h
          rcases hrun : runStageTasks stage (env.batch s.nBatch) with ⟨o, called⟩
          rw [hrun] at h
          cases o <;> simp at h
        · rw [if_neg hfe] at h
          simp at h

/-- Inversion of a continuing loop iteration: the cursor either stays (the
poll-again path) or advances by one, and it advances only past a stage whose
environment differs from the target. -/
theorem loopBody_next_inv (env : LoopEnv) (preview : List Stage)
    (target : String) (s s' : LoopState)
    (h : loopBody env preview target s = .next s') :
    s'.i = s.i ∨
    (s'.i = s.i + 1 ∧ ∃ stage,
      ((effRollout env s).stages.getD []).get? s.i = some stage ∧
      (stage.environment == target) = false) := by
  unfold loopBody at h
  by_cases hlen : preview.length ≤ s.i
  · rw [if_pos hlen] at h
    simp at h
  rw [if_neg hlen] at h
  cases hget : ((effRollout env s).stages.getD []).get? s.i with
  | none => rw [hget] at h; simp at h
  | some stage =>
    rw [hget] at h
    dsimp only at h
    cases hgss : getStageStatus stage with
    | none => rw [hgss] at h; simp at h
    | some stst =>
      rw [hgss] at h
      dsimp only at h
      by_cases hdone : stst.done = true
      · rw [if_pos hdone] at h
        by_cases hbeq : (stage.environment == target) = true
        · rw [if_pos hbeq] at h
          simp at h
        · rw [if_neg hbeq] at h
          injection h with h1
          subst h1
          exact Or.inr ⟨rfl, stage, rfl, Bool.eq_false_iff.mpr hbeq⟩
      · rw [if_neg hdone] at h
        by_cases hfe : stst.failedTasks.isEmpty = true
        · rw [if_pos hfe] at h
          rcases hrun : runStageTasks stage (env.batch s.nBatch) with ⟨o, called⟩
          rw [hrun] at h
          cases o with
          | crashed => simp at h
          | err m => simp at h
          | ok =>
              injection h with h1
              subst h1
              exact Or.inl rfl
        · rw [if_neg hfe] at h
          simp at h

theorem traceBelow_append {preview : List Stage} {bound : Nat}
    {trace l : List Event} {i : Nat} (h1 : TraceBelow preview bound trace)
    (hi : i ≤ bound) (h2 : NewEventsAt preview i l) :
    TraceBelow preview bound (trace ++ l) := by
  intro ev hev
  rcases List.mem_append.mp hev with hm | hm
  · exact h1 ev hm
  · obtain ⟨hidx, hcs⟩ := h2 ev hm
    refine ⟨hidx ▸ hi, fun j e he => (hcs j e he).2⟩

/-- Fuel induction for the `[A, B, C]`/target-`B` scenario: starting from
any state whose cursor and trace are within stage B's index, a success exit
returns stage B classified done, keeps every event at cursor ≤ 1, and ends
the trace with the final iteration's fetch (or stage-creation) event — not
with a sleep or batch-run. -/
theorem waitLoopAux_success_inv (sA sB sC : Stage) (env : LoopEnv)
    (hab : sA.environment ≠ sB.environment)
    (henv : envAgrees [sA, sB, sC] env) :
    ∀ (fuel : Nat) (s : LoopState) (stg : Stage) (tr : List Event),
      s.i ≤ 1 → TraceBelow [sA, sB, sC] 1 s.trace →
      waitLoopAux env [sA, sB, sC] sB.environment fuel s = (.success stg, tr) →
      stg.environment = sB.environment ∧
      (∃ ts, stg.tasks = some ts ∧
        (ts.all fun e => e.status == TaskStatus.DONE || e.status == TaskStatus.SKIPPED) = true) ∧
      TraceBelow [sA, sB, sC] 1 tr ∧
      (∀ ev, tr.getLast? = some ev →
        ev = Event.getRollout 1 ∨ ev = Event.createStage 1 sB.environment) := by
  intro fuel
  induction fuel with
  | zero =>
      intro s stg tr _ _ h
      simp [waitLoopAux] at h
  | succ n ih =>
      intro s stg tr hi htr h
      simp only [waitLoopAux] at h
      cases hbody : loopBody env [sA, sB, sC] sB.environment s with
      | halt o tr' =>
          rw [hbody] at h
          dsimp only at h
          injection h with h1 h2
          subst h1
          subst h2
          obtain ⟨hget, hbeq, hdone, htreq⟩ :=
            loopBody_success_inv env [sA, sB, sC] sB.environment s stg tr' hbody
          have henveq : stg.environment = sB.environment := eq_of_beq hbeq
          have hmap := effRollout_agrees [sA, sB, sC] env s henv s.i stg hget
          have hsi : s.i = 1 := by
            rcases Nat.le_one_iff_eq_zero_or_eq_one.mp hi with h0 | h1
            · exfalso
              rw [h0] at hmap
              simp only [List.get?] at hmap
              simp at hmap
              exact hab (hmap.trans henveq)
            · exact h1
          refine ⟨henveq, hdone, ?_, ?_⟩
          · rw [htreq]
            exact traceBelow_append htr hi (newEventsAt_fetchEvents env [sA, sB, sC] s)
          · intro ev hev
            rw [htreq] at hev
            unfold fetchEvents at hev
            rw [hsi] at hev
            have hpe : previewEnvAt [sA, sB, sC] 1 = sB.environment := by
              simp [previewEnvAt]
            rw [hpe] at hev
            by_cases hc : fetchNeedsCreate env s = true
            · rw [if_pos hc] at hev
              have : s.trace ++ [Event.getRollout 1, Event.createStage 1 sB.environment] =
                  (s.trace ++ [Event.getRollout 1]) ++ [Event.createStage 1 sB.environment] := by
                simp
              rw [this, List.getLast?_concat] at hev
              right
              exact (Option.some.injEq _ _ ▸ hev).symm ▸ rfl
            · rw [if_neg hc] at hev
              rw [List.getLast?_concat] at hev
              left
              injection hev with hev
              exact hev.symm
      | next s' =>
          rw [hbody] at h
          dsimp only at h
          have hi' : s'.i ≤ 1 := by
            rcases loopBody_next_inv env [sA, sB, sC] sB.environment s s' hbody with
              heq | ⟨hinc, stage, hget, hbeq⟩
            · rw [heq]; exact hi
            · have hmap := effRollout_agrees [sA, sB, sC] env s henv s.i stage hget
              rcases Nat.le_one_iff_eq_zero_or_eq_one.mp hi with h0 | h1
              · rw [hinc, h0]
              · exfalso
                rw [h1] at hmap
                simp [previewEnvAt] at hmap
                rw [← hmap] at hbeq
                simp at hbeq
          have htr' : TraceBelow [sA, sB, sC] 1 s'.trace := by
            obtain ⟨l, hl, hshape⟩ :=
              loopBody_trace_shape env [sA, sB, sC] sB.environment s
            rw [hbody] at hshape
            dsimp [stepTrace] at hshape
            rw [hshape]
            exact traceBelow_append htr hi hl
          exact ih s' stg tr hi' htr' h

/-- Once the stage at the cursor is classified done and its environment is
the target, the very same iteration halts with success, appending only the
fetch (and possibly the stage-creation) events — no batch-run, no sleep. -/
theorem loopBody_done_target (env : LoopEnv) (preview : List Stage)
    (target : String) (s : LoopState) (stage : Stage) (ts : List Task)
    (hlen : s.i < preview.length)
    (hget : ((effRollout env s).stages.getD []).get? s.i = some stage)
    (hts : stage.tasks = some ts)
    (hdone : (ts.all fun e =>
      e.status == TaskStatus.DONE || e.status == TaskStatus.SKIPPED) = true)
    (henvv : stage.environment = target) :
    loopBody env preview target s =
      .halt (.success stage) (s.trace ++ fetchEvents env preview s) := by
  have hgss : getStageStatus stage = some
      ⟨ts.all fun e => e.status == TaskStatus.DONE || e.status == TaskStatus.SKIPPED,
       ts.filter fun e => e.status == TaskStatus.FAILED⟩ := by
    unfold getStageStatus
    rw [hts]
  unfold loopBody
  rw [if_neg (not_le.mpr hlen), hget]
  dsimp only
  rw [hgss]
  dsimp only
  rw [if_pos hdone, if_pos (by simp [henvv])]

/-- C4: with a three-stage preview `[A, B, C]` (pairwise distinct stage
environments) and target `B`, under the spec's consistency invariant
(every reported rollout's stage environments agree index-wise with the
preview): (I) whenever the loop returns success it returns stage B
classified done (never before B is done), every recorded remote call was
issued at cursor ≤ 1 — so stage C is never classified, its creation is
never requested (no stage-creation call carries C's environment) and its
tasks are never run — and the trace ends with the final iteration's fetch
or stage-creation event (no trailing sleep or batch-run); and (II) from any
state at cursor 1 in which the effective rollout's stage B is classified
done, the loop returns success immediately in that iteration, appending
only that iteration's fetch (and possibly stage-creation) events. -/
theorem claim4_target_stage_boundary (sA sB sC : Stage) (env : LoopEnv)
    (hab : sA.environment ≠ sB.environment)
    (hbc : sB.environment ≠ sC.environment)
    (hac : sA.environment ≠ sC.environment)
    (henv : envAgrees [sA, sB, sC] env) :
    (∀ fuel stg tr,
      waitRollout env [sA, sB, sC] sB.environment fuel = (.success stg, tr) →
      stg.environment = sB.environment ∧
      (∃ ts, stg.tasks = some ts ∧
        (ts.all fun e =>
          e.status == TaskStatus.DONE || e.status == TaskStatus.SKIPPED) = true) ∧
      (∀ ev ∈ tr, ev.index ≤ 1) ∧
      (∀ j e, Event.createStage j e ∈ tr → e ≠ sC.environment) ∧
      (∀ ev, tr.getLast? = some ev →
        ev = Event.getRollout 1 ∨ ev = Event.createStage 1 sB.environment)) ∧
    (∀ (s : LoopState) (stage : Stage) (ts : List Task) (fuel : Nat),
      s.i = 1 →
      ((effRollout env s).stages.getD []).get? 1 = some stage →
      stage.tasks = some ts →
      (ts.all fun e =>
        e.status == TaskStatus.DONE || e.status == TaskStatus.SKIPPED) = true →
      stage.environment = sB.environment →
      waitLoopAux env [sA, sB, sC] sB.environment (fuel + 1) s =
        (.success stage, s.trace ++ fetchEvents env [sA, sB, sC] s)) := by
  constructor
  · intro fuel stg tr h
    unfold waitRollout at h
    rw [if_neg (by simp)] at h
    obtain ⟨h1, h2, h3, h4⟩ :=
      waitLoopAux_success_inv sA sB sC env hab henv fuel initialState stg tr
        (by simp [initialState])
        (by intro ev hev; simp [initialState] at hev) h
    refine ⟨h1, h2, fun ev hev => (h3 ev hev).1, ?_, h4⟩
    intro j e hmem
    obtain ⟨hidx, hcs⟩ := h3 _ hmem
    have he := hcs j e rfl
    have hj : j ≤ 1 := by simpa [Event.index] using hidx
    rcases Nat.le_one_iff_eq_zero_or_eq_one.mp hj with rfl | rfl
    · have hpe : previewEnvAt [sA, sB, sC] 0 = sA.environment := by
        simp [previewEnvAt]
      rw [he, hpe]
      exact hac
    · have hpe : previewEnvAt [sA, sB, sC] 1 = sB.environment := by
        simp [previewEnvAt]
      rw [he, hpe]
      exact hbc
  · intro s stage ts fuel hi hget hts hdone henvv
    have hget' : ((effRollout env s).stages.getD []).get? s.i = some stage := by
      rw [hi]
      exact hget
    simp only [waitLoopAux]
    rw [loopBody_done_target env [sA, sB, sC] sB.environment s stage ts
      (by rw [hi]; simp) hget' hts hdone henvv]

/-- For a concrete response oracle, index-wise agreement with the preview
follows from its (decidable) restriction to the indices the reported stage
list actually has. -/
theorem agreesWithPreview_of_bounded (preview : List Stage) (r : Rollout)
    (h : ∀ j, j < (r.stages.getD []).length →
      (preview.get? j).map Stage.environment =
        ((r.stages.getD []).get? j).map Stage.environment) :
    agreesWithPreview preview r := by
  intro j stage hj
  have hlt : j < (r.stages.getD []).length := by
    by_contra hge
    rw [List.get?_eq_none.mpr (le_of_not_lt hge)] at hj
    cases hj
  have := h j hlt
  rw [hj] at this
  simpa using this

/-- Sanity check: on the concrete oracle the loop does return success at
stage B, having polled stages A and B once each and never touched C. -/
theorem loopEnvW_run :
    waitRollout loopEnvW [stageAW, stageBW, stageCW] "environments/staging" 5 =
      (.success stageBW, [Event.getRollout 0, Event.getRollout 1]) := by
  decide

/-- Witness for C4: the concrete `[A, B, C]` preview and oracle above. -/
theorem claim4_target_stage_boundary_witness :
    (∀ fuel stg tr,
      waitRollout loopEnvW [stageAW, stageBW, stageCW] stageBW.environment fuel =
        (.success stg, tr) →
      stg.environment = stageBW.environment ∧
      (∃ ts, stg.tasks = some ts ∧
        (ts.all fun e =>
          e.status == TaskStatus.DONE || e.status == TaskStatus.SKIPPED) = true) ∧
      (∀ ev ∈ tr, ev.index ≤ 1) ∧
      (∀ j e, Event.createStage j e ∈ tr → e ≠ stageCW.environment) ∧
      (∀ ev, tr.getLast? = some ev →
        ev = Event.getRollout 1 ∨ ev = Event.createStage 1 stageBW.environment)) ∧
    (∀ (s : LoopState) (stage : Stage) (ts : List Task) (fuel : Nat),
      s.i = 1 →
      ((effRollout loopEnvW s).stages.getD []).get? 1 = some stage →
      stage.tasks = some ts →
      (ts.all fun e =>
        e.status == TaskStatus.DONE || e.status == TaskStatus.SKIPPED) = true →
      stage.environment = stageBW.environment →
      waitLoopAux loopEnvW [stageAW, stageBW, stageCW] stageBW.environment (fuel + 1) s =
        (.success stage, s.trace ++ fetchEvents loopEnvW [stageAW, stageBW, stageCW] s)) :=
  claim4_target_stage_boundary stageAW stageBW stageCW loopEnvW
    (by decide) (by decide) (by decide)
    ⟨fun k =>
       agreesWithPreview_of_bounded [stageAW, stageBW, stageCW]
         ⟨"projects/p/rollouts/1", "projects/p/plans/1", some [stageAW, stageBW]⟩
         (by decide),
     fun k =>
       agreesWithPreview_of_bounded [stageAW, stageBW, stageCW]
         ⟨"projects/p/rollouts/1", "projects/p/plans/1", some [stageAW, stageBW]⟩
         (by decide)⟩

/-- Witness for C10 at the initial state of a single-stage preview. -/
theorem claim10_unguarded_stage_access_witness :
    initialState.i < ([stageAW] : List Stage).length ∧
    (((loopEnvC10.fetch initialState.nFetch).stages = none →
      Event.createStage initialState.i (previewEnvAt [stageAW] initialState.i) ∈
        stepTrace (loopBody loopEnvC10 [stageAW] "environments/test" initialState)) ∧
    ((∀ tr, loopBody loopEnvC10 [stageAW] "environments/test" initialState ≠
        .halt .stuck tr) ↔
      ∃ stage ts,
        ((effRollout loopEnvC10 initialState).stages.getD []).get? initialState.i =
          some stage ∧ stage.tasks = some ts)) :=
  ⟨by decide,
   claim10_unguarded_stage_access loopEnvC10 [stageAW] "environments/test"
     initialState (by decide)⟩

end RolloutAction
